import Mathlib

/-
Shallow embedding of the core of the infraAutoBots/infrawatch-ai-agent
repository (predictive analytics engine and semantic retrieval store),
together with proofs about the claims of its specification.

Modelling conventions:
- Python strings are lists of characters (PyStr).
- Python numbers are exact rationals; floating point rounding is not modelled.
- Python dicts with string keys are association lists; dynamic values are PyVal.
- datetime.now() is an explicit parameter (now : PyStr) threaded through the
  functions that read the clock; Python str(hash(...)) and md5 hex digests are
  abstracted to the concatenation of their inputs (no claim depends on the
  concrete hash value, only on which inputs it depends on).
- float() applied to a numeric value is exact; float() applied to a string is
  modelled as failing (numeric-string parsing is not modelled; every claim
  quantifies over numeric fields only).
- fallible operations return Except; mutation of a store is explicit state
  passing (the new store is returned).
-/

namespace InfraWatch

/-- Python strings modelled as lists of characters. -/
abbrev PyStr := List Char

/-- Converts a Lean string literal into the character-list model. -/
def str (s : String) : PyStr := s.toList

/-- Dynamic Python values as they occur in the telemetry dictionaries. -/
inductive PyVal where
  | num (q : ℚ)
  | pstr (s : PyStr)
  | pbool (b : Bool)
deriving DecidableEq

/-- Python truthiness of a dynamic value. -/
def truthy : PyVal → Bool
  | .num q => decide (q ≠ 0)
  | .pstr s => !s.isEmpty
  | .pbool b => b

/-- Python isinstance(v, (int, float)); note that bool is a subtype of int. -/
def isNumeric : PyVal → Bool
  | .num _ => true
  | .pstr _ => false
  | .pbool _ => true

/-- Python float(v) for values on which it succeeds in the model. -/
def pyFloatOpt : PyVal → Option ℚ
  | .num q => some q
  | .pstr _ => none
  | .pbool b => some (if b then 1 else 0)

/-- Python float(v) when the value is already known to be numeric. -/
def toQ : PyVal → ℚ
  | .num q => q
  | .pstr _ => 0
  | .pbool b => if b then 1 else 0

/-- Python dict lookup, dict.get(k): association-list lookup by key. -/
def assocGet {β : Type} (k : PyStr) : List (PyStr × β) → Option β
  | [] => none
  | e :: rest => if e.1 = k then some e.2 else assocGet k rest

/-- Python dicts from string keys to dynamic values. -/
abbrev Dict := List (PyStr × PyVal)

/-- Python str.split() whitespace characters (ASCII fragment of \s). -/
def isSpace (c : Char) : Bool :=
  c = ' ' || c = '\t' || c = '\n' || c = '\x0d' || c = '\x0b' || c = '\x0c'

/-- Python str.lower(), modelled on ASCII letters and the uppercase accented
characters appearing in the similarity alphabet; other characters unchanged. -/
def pyLower (c : Char) : Char :=
  if 'A' ≤ c ∧ c ≤ 'Z' then Char.ofNat (c.toNat + 32)
  else if c = 'Á' then 'á' else if c = 'À' then 'à'
  else if c = 'Â' then 'â' else if c = 'Ã' then 'ã'
  else if c = 'É' then 'é' else if c = 'Ê' then 'ê'
  else if c = 'Í' then 'í' else if c = 'Ó' then 'ó'
  else if c = 'Ô' then 'ô' else if c = 'Õ' then 'õ'
  else if c = 'Ú' then 'ú' else if c = 'Ç' then 'ç'
  else c

/-- Characters kept by re.sub(r'[^a-záàâãéêíóôõúç\s]', '', ...) in
_simple_similarity: lowercase letters, the accented letters, whitespace. -/
def keepChar (c : Char) : Bool :=
  ('a' ≤ c && c ≤ 'z') ||
  c ∈ ['á', 'à', 'â', 'ã', 'é', 'ê', 'í', 'ó', 'ô', 'õ', 'ú', 'ç'] ||
  isSpace c

/-- The lowercase-and-strip step of _simple_similarity:
re.sub(r'[^a-záàâãéêíóôõúç\s]', '', text.lower()). -/
def clean_text (t : PyStr) : PyStr := (t.map pyLower).filter keepChar

/-- Helper for pySplit: accumulates the current word (reversed). -/
def pySplitAux : PyStr → PyStr → List PyStr
  | [], acc => if acc.isEmpty then [] else [acc.reverse]
  | c :: cs, acc =>
    if isSpace c then
      if acc.isEmpty then pySplitAux cs [] else acc.reverse :: pySplitAux cs []
    else pySplitAux cs (c :: acc)

/-- Python str.split() with no arguments: split on whitespace runs, no empty
words. -/
def pySplit (t : PyStr) : List PyStr := pySplitAux t []

/-- Python str.strip(): drop leading and trailing whitespace. -/
def pyStrip (t : PyStr) : PyStr :=
  ((t.dropWhile isSpace).reverse.dropWhile isSpace).reverse

/-- The set of words of a text, after cleaning: set(text_clean.split()) in
_simple_similarity. -/
def word_set (t : PyStr) : Finset PyStr := (pySplit (clean_text t)).toFinset

/-- The fixed domain-keyword set of _simple_similarity (important_words). -/
def important_words : Finset PyStr :=
  (["snmp", "ping", "tcp", "udp", "http", "https", "ssh", "ftp",
    "servidor", "rede", "switch", "router", "firewall", "load", "balancer",
    "cpu", "memoria", "disco", "bandwidth", "latencia", "throughput",
    "monitor", "alert", "threshold", "metric", "log", "error",
    "warning"].map str).toFinset

/-- The value of the local variable similarity in _simple_similarity just
before the final return: Jaccard similarity plus the 0.1-per-shared-keyword
bonus, before the min(similarity, 1.0) cap. -/
def simple_similarity_raw (text1 text2 : PyStr) : ℚ :=
  let words1 := word_set text1
  let words2 := word_set text2
  let inter := words1 ∩ words2
  let un := words1 ∪ words2
  let similarity := if un = ∅ then 0 else (inter.card : ℚ) / (un.card : ℚ)
  let common_important := inter ∩ important_words
  if common_important ≠ ∅
  then similarity + (common_important.card : ℚ) * (1 / 10)
  else similarity

/-- Models VectorStore._simple_similarity of vector_store_simple.py: returns
0.0 when either word set is empty, else the Jaccard-plus-bonus score capped by
min(similarity, 1.0). -/
def simple_similarity (text1 text2 : PyStr) : ℚ :=
  if word_set text1 = ∅ ∨ word_set text2 = ∅ then 0
  else min (simple_similarity_raw text1 text2) 1

/-- One entry of the in-memory knowledge base of the simple vector store. The
guard isinstance(item, dict) and 'content' in item of the source is vacuous
for these typed entries (add_document only ever appends entries of this
shape). -/
structure KBDoc where
  id : PyStr
  content : PyStr
  metadata : List (PyStr × PyStr)
  timestamp : PyStr
deriving DecidableEq

/-- Models VectorStore._generate_id: md5-hex of the content (abstracted to the
content itself) joined to the current timestamp by an underscore. -/
def generate_id (content : PyStr) (now : PyStr) : PyStr :=
  content ++ str "_" ++ now

/-- Models VectorStore.add_document of vector_store_simple.py. Returns the
result (an id, or the ValueError raised on blank content) together with the
knowledge base after the call (unchanged when the error is raised). -/
def add_document (kb : List KBDoc) (content : PyStr)
    (metadata : List (PyStr × PyStr)) (document_id : Option PyStr)
    (now : PyStr) : Except PyStr PyStr × List KBDoc :=
  if (pyStrip content).isEmpty then
    (.error (str "Conteúdo não pode estar vazio"), kb)
  else
    let docId := match document_id with
      | none => generate_id content now
      | some i => if i.isEmpty then generate_id content now else i
    (.ok docId, kb ++ [{ id := docId, content := content, metadata := metadata,
                         timestamp := now }])

/-- One formatted entry of the list returned by search_similar. -/
structure SearchResult where
  id : PyStr
  content : PyStr
  metadata : List (PyStr × PyStr)
  similarity : ℚ
deriving DecidableEq

/-- The metadata filter of search_similar:
all(metadata.get(k) == v for k, v in filter_metadata.items()). -/
def metaMatches (fm : Option (List (PyStr × PyStr)))
    (md : List (PyStr × PyStr)) : Bool :=
  match fm with
  | none => true
  | some fs => fs.all fun kv => decide (assocGet kv.1 md = some kv.2)

/-- The scored candidate list built by the loop of search_similar, before
sorting and truncation: every knowledge-base entry passing the metadata filter
whose similarity to the query exceeds the 0.1 threshold. -/
def search_scored (kb : List KBDoc) (query : PyStr)
    (fm : Option (List (PyStr × PyStr))) : List SearchResult :=
  kb.filterMap fun item =>
    if metaMatches fm item.metadata then
      if 1 / 10 < simple_similarity query item.content then
        some { id := item.id, content := item.content,
               metadata := item.metadata,
               similarity := simple_similarity query item.content }
      else none
    else none

/-- Models VectorStore.search_similar of vector_store_simple.py: score, sort
by similarity descending (stable), take the first n_results. -/
def search_similar (kb : List KBDoc) (query : PyStr) (n_results : Nat)
    (fm : Option (List (PyStr × PyStr))) : List SearchResult :=
  (List.mergeSort (search_scored kb query fm)
    (fun a b => decide (b.similarity ≤ a.similarity))).take n_results

/-- The ellipsis appended to a truncated context chunk. -/
def ellipsisStr : PyStr := str "..."

/-- The separator inserted between context chunks by get_relevant_context. -/
def ctxSep : PyStr := str "\n\n---\n\n"

/-- The context-assembly loop of get_relevant_context: append a full document
while the running total of raw content stays within the budget; on overflow,
append a truncated prefix plus ellipsis only when more than 100 characters of
budget remain, then stop. Note that the running total counts only raw document
content: neither the separators nor the ellipsis are charged to the budget. -/
def build_context_parts (maxLen : Nat) : List PyStr → Nat → List PyStr
  | [], _ => []
  | c :: rest, cur =>
    if cur + c.length ≤ maxLen then
      c :: build_context_parts maxLen rest (cur + c.length)
    else if 100 < maxLen - cur then [c.take (maxLen - cur) ++ ellipsisStr]
    else []

/-- Python sep.join(parts). -/
def pyJoin (sep : PyStr) : List PyStr → PyStr
  | [] => []
  | [x] => x
  | x :: y :: rest => x ++ sep ++ pyJoin sep (y :: rest)

/-- Models VectorStore.get_relevant_context of vector_store_simple.py: empty
answer on a blank query, a fixed message when no document passes the 0.1
similarity threshold, otherwise the separator-joined budget-limited context.
The try/except of the source is dead in this total embedding (its body cannot
raise). -/
def get_relevant_context (kb : List KBDoc) (query : PyStr)
    (max_context_length : Nat) (n_results : Nat) : PyStr :=
  if (pyStrip query).isEmpty then []
  else
    let similar_docs := kb.filterMap fun item =>
      if 1 / 10 < simple_similarity query item.content then
        some (item.content, simple_similarity query item.content)
      else none
    let sorted := List.mergeSort similar_docs (fun a b => decide (b.2 ≤ a.2))
    let top_docs := sorted.take n_results
    if top_docs.isEmpty then
      str "Nenhum contexto relevante encontrado na base de conhecimento."
    else
      pyJoin ctxSep (build_context_parts max_context_length
        (top_docs.map Prod.fst) 0)

/-- Abstraction of Python numeric string formatting; the exact rendering is
irrelevant to every claim (it only ever feeds free-text alert fields). -/
def fmt1 (q : ℚ) : PyStr :=
  (toString q.num).toList ++ str "." ++ (toString q.den).toList

/-- Python str(n) for a natural number. -/
def natStr (n : Nat) : PyStr := (toString n).toList

/-- Python f-string interpolation of a dynamic value. -/
def pyValStr : PyVal → PyStr
  | .num q => fmt1 q
  | .pstr s => s
  | .pbool b => if b then str "True" else str "False"

/-- Models the PredictiveConfig model: confidence_threshold is clamped into
[50, 100] at construction. The remaining constructor fields
(prediction_window, analysis_type, real_time_enabled, time_range, endpoints)
never influence the analysis functions and are omitted. -/
structure PredictiveConfig where
  confidence_threshold : ℚ
deriving DecidableEq

/-- The PredictiveConfig constructor with its clamp. -/
def mkPredictiveConfig (t : ℚ) : PredictiveConfig :=
  { confidence_threshold := max 50 (min 100 t) }

/-- Models the PredictiveAlert model of app/models: probability is clamped
into [0, 100] at construction; id is str(hash(endpoint + metric + now))
(hash abstracted); timestamp and created_at both record the construction
time. -/
structure PredictiveAlert where
  id : PyStr
  endpoint : PyStr
  metric : PyStr
  predicted_issue : PyStr
  probability : ℚ
  estimated_time : PyStr
  suggested_actions : List PyStr
  confidence_threshold : ℚ
  timestamp : PyStr
  created_at : PyStr
deriving DecidableEq

/-- The PredictiveAlert constructor. -/
def mkPredictiveAlert (endpoint metric predicted_issue : PyStr)
    (probability : ℚ) (estimated_time : PyStr)
    (suggested_actions : List PyStr) (confidence_threshold : ℚ)
    (now : PyStr) : PredictiveAlert :=
  { id := endpoint ++ metric ++ now
    endpoint := endpoint
    metric := metric
    predicted_issue := predicted_issue
    probability := max 0 (min 100 probability)
    estimated_time := estimated_time
    suggested_actions := suggested_actions
    confidence_threshold := confidence_threshold
    timestamp := now
    created_at := now }

/-- An endpoint object as consumed by _analyze_endpoint_trends: the keys
name, id and data of the endpoint dictionary. -/
structure Endpoint where
  name : Option PyStr
  id : Option PyVal
  data : Dict
deriving DecidableEq

/-- A monitor record as consumed by _convert_monitors_to_endpoints: the keys
endpoint and data. -/
structure Monitor where
  endpoint : Option PyStr
  data : Dict
deriving DecidableEq

/-- The infrastructure_data dictionary of analyze_predictive_patterns, with
its read keys; a missing key yields the source's default. The empty or
missing dictionary (Python falsy) is modelled by Option.none at the call
site. Only the endpoint key of each existing-alert record is ever read, so
alerts is a list of optional endpoint names. -/
structure InfraData where
  endpoints : List Endpoint
  monitors : List Monitor
  total_endpoints : ℚ
  total_online : ℚ
  total_offline : ℚ
  alerts : List (Option PyStr)

/-- Models PredictiveService._analyze_cpu_trends. -/
def analyze_cpu_trends (endpoint_name : PyStr) (endpoint_data : Dict)
    (config : PredictiveConfig) (now : PyStr) : Option PredictiveAlert :=
  match assocGet (str "cpu_usage") endpoint_data with
  | none => none
  | some v =>
    if !truthy v || !isNumeric v then none
    else
      let cpu_usage := toQ v
      if 80 < cpu_usage then
        some (mkPredictiveAlert endpoint_name (str "cpu_usage")
          (str "Alto uso de CPU (" ++ fmt1 cpu_usage ++
            str "%) pode causar degradação")
          (min 95 (70 + (cpu_usage - 80) * 2))
          (if 90 < cpu_usage then str "2-4 horas" else str "6-12 horas")
          [str "Verificar processos em execução",
           str "Considerar otimização de aplicações",
           str "Monitorar tendência nas próximas horas"]
          config.confidence_threshold now)
      else if 70 < cpu_usage then
        some (mkPredictiveAlert endpoint_name (str "cpu_usage")
          (str "Tendência de aumento no uso de CPU (" ++ fmt1 cpu_usage ++
            str "%)")
          (60 + (cpu_usage - 70))
          (str "12-24 horas")
          [str "Monitorar aplicações críticas",
           str "Preparar plano de otimização"]
          config.confidence_threshold now)
      else none

/-- Models PredictiveService._analyze_memory_trends. -/
def analyze_memory_trends (endpoint_name : PyStr) (endpoint_data : Dict)
    (config : PredictiveConfig) (now : PyStr) : Option PredictiveAlert :=
  match assocGet (str "memory_usage") endpoint_data with
  | none => none
  | some v =>
    if !truthy v || !isNumeric v then none
    else
      let memory_usage := toQ v
      if 85 < memory_usage then
        some (mkPredictiveAlert endpoint_name (str "memory_usage")
          (str "Esgotamento de memória iminente (" ++ fmt1 memory_usage ++
            str "%)")
          (min 90 (75 + (memory_usage - 85) * 2))
          (if 95 < memory_usage then str "1-3 horas" else str "4-8 horas")
          [str "Verificar vazamentos de memória",
           str "Reiniciar serviços não críticos",
           str "Considerar aumento de RAM"]
          config.confidence_threshold now)
      else if 75 < memory_usage then
        some (mkPredictiveAlert endpoint_name (str "memory_usage")
          (str "Uso crescente de memória (" ++ fmt1 memory_usage ++ str "%)")
          (65 + (memory_usage - 75))
          (str "8-16 horas")
          [str "Monitorar aplicações que consomem memória",
           str "Preparar estratégia de limpeza"]
          config.confidence_threshold now)
      else none

/-- Models PredictiveService._analyze_network_trends. -/
def analyze_network_trends (endpoint_name : PyStr) (endpoint_data : Dict)
    (config : PredictiveConfig) (now : PyStr) : Option PredictiveAlert :=
  match assocGet (str "response_time") endpoint_data with
  | none => none
  | some v =>
    if !truthy v || !isNumeric v then none
    else
      let response_ms := toQ v
      if 5000 < response_ms then
        some (mkPredictiveAlert endpoint_name (str "response_time")
          (str "Latência crítica (" ++ fmt1 response_ms ++
            str "ms) indica problemas graves de conectividade")
          (min 95 (80 + (response_ms - 5000) / 1000))
          (str "1-2 horas")
          [str "Verificar conectividade de rede imediatamente",
           str "Analisar roteamento de rede",
           str "Verificar equipamentos de rede",
           str "Considerar problema de ISP"]
          config.confidence_threshold now)
      else if 2000 < response_ms then
        some (mkPredictiveAlert endpoint_name (str "response_time")
          (str "Latência elevada (" ++ fmt1 response_ms ++
            str "ms) pode causar degradação de serviços")
          (min 85 (70 + (response_ms - 2000) / 100))
          (str "2-6 horas")
          [str "Monitorar conectividade de rede",
           str "Verificar congestionamento de rede",
           str "Analisar qualidade da conexão"]
          config.confidence_threshold now)
      else if 1000 < response_ms then
        some (mkPredictiveAlert endpoint_name (str "response_time")
          (str "Degradação na performance de rede (" ++ fmt1 response_ms ++
            str "ms)")
          (60 + (response_ms - 1000) / 50)
          (str "6-12 horas")
          [str "Monitorar latência continuamente",
           str "Verificar qualidade da conexão"]
          config.confidence_threshold now)
      else none

/-- Models PredictiveService._analyze_availability_trends. A non-string status
value makes status.lower() raise AttributeError, which the catch-all handler
of the source turns into None; a string-valued response_time makes the inner
float() raise, which the inner except turns into a silent pass. -/
def analyze_availability_trends (endpoint_name : PyStr) (endpoint_data : Dict)
    (config : PredictiveConfig) (now : PyStr) : Option PredictiveAlert :=
  let stVal := assocGet (str "status") endpoint_data
  match stVal with
  | some (.num _) => none
  | some (.pbool _) => none
  | _ =>
    let status : PyStr := match stVal with
      | some (.pstr s) => s.map pyLower
      | _ => []
    if status = str "offline" then
      some (mkPredictiveAlert endpoint_name (str "availability")
        (str "Endpoint offline - possível falha de conectividade ou sistema")
        95
        (str "Imediato")
        [str "Verificar conectividade de rede",
         str "Verificar status do sistema",
         str "Investigar logs de sistema",
         str "Testar acessibilidade manual"]
        config.confidence_threshold now)
    else if status = str "disabled" then
      some (mkPredictiveAlert endpoint_name (str "availability")
        (str "Endpoint desabilitado - monitoramento inativo")
        80
        (str "Até reativação")
        [str "Verificar se desabilitação foi intencional",
         str "Reativar monitoramento se necessário",
         str "Atualizar documentação de endpoints"]
        config.confidence_threshold now)
    else
      match assocGet (str "response_time") endpoint_data with
      | none => none
      | some rt =>
        if truthy rt && decide (status = str "online") then
          match pyFloatOpt rt with
          | none => none
          | some ping_ms =>
            if 10000 < ping_ms then
              some (mkPredictiveAlert endpoint_name (str "availability")
                (str "Resposta extremamente lenta (" ++ fmt1 ping_ms ++
                  str "ms) - risco de timeout")
                85
                (str "30 minutos - 2 horas")
                [str "Investigar causa da lentidão",
                 str "Verificar capacidade de rede",
                 str "Considerar restart de serviços",
                 str "Monitorar tendência de degradação"]
                config.confidence_threshold now)
            else none
        else none

/-- Models PredictiveService._analyze_endpoint_trends: resolve the display
name, return no alerts on an empty data dictionary, otherwise collect the
four per-family analyses in order. -/
def analyze_endpoint_trends (e : Endpoint) (config : PredictiveConfig)
    (now : PyStr) : List PredictiveAlert :=
  let endpoint_name := e.name.getD
    (str "Endpoint " ++ (match e.id with
      | some v => pyValStr v
      | none => str "Unknown"))
  if e.data.isEmpty then []
  else
    (analyze_cpu_trends endpoint_name e.data config now).toList ++
    (analyze_memory_trends endpoint_name e.data config now).toList ++
    (analyze_network_trends endpoint_name e.data config now).toList ++
    (analyze_availability_trends endpoint_name e.data config now).toList

/-- Counting helper for _analyze_alert_patterns: bump the count of a key in
an insertion-ordered association list (the iteration order of a Python
dict). -/
def bumpCount (key : PyStr) : List (PyStr × Nat) → List (PyStr × Nat)
  | [] => [(key, 1)]
  | (k, n) :: rest =>
    if k = key then (k, n + 1) :: rest else (k, n) :: bumpCount key rest

/-- Models PredictiveService._analyze_alert_patterns: group the existing
alert records by endpoint (default name Unknown) and emit one fixed
probability-80 pattern alert per endpoint holding at least three records. -/
def analyze_alert_patterns (alerts : List (Option PyStr))
    (config : PredictiveConfig) (now : PyStr) : List PredictiveAlert :=
  if alerts.isEmpty then []
  else
    (alerts.foldl (fun acc a => bumpCount (a.getD (str "Unknown")) acc)
        []).filterMap fun kn =>
      if 3 ≤ kn.2 then
        some (mkPredictiveAlert kn.1 (str "alert_frequency")
          (str "Padrão de múltiplos alertas detectado (" ++ natStr kn.2 ++
            str " alertas)")
          80
          (str "1-4 horas")
          [str "Investigar causa raiz dos alertas",
           str "Verificar se há problema sistêmico",
           str "Considerar manutenção preventiva"]
          config.confidence_threshold now)
      else none

/-- The cpu_usage entry derived by _convert_monitors_to_endpoints: present
when hrProcessorLoad is not None (an is-not-None test, so a numeric zero
passes) and float() succeeds on it. -/
def cpuPartOf (d : Dict) : Dict :=
  match assocGet (str "hrProcessorLoad") d with
  | some v =>
    match pyFloatOpt v with
    | some q => [(str "cpu_usage", .num q)]
    | none => []
  | none => []

/-- The memory_usage entry derived by _convert_monitors_to_endpoints: present
when memTotalReal and memAvailReal are both truthy (so a numeric zero does
not qualify), both convert with float(), and the total is positive. -/
def memPartOf (d : Dict) : Dict :=
  match assocGet (str "memTotalReal") d, assocGet (str "memAvailReal") d with
  | some tv, some av =>
    if truthy tv && truthy av then
      match pyFloatOpt tv, pyFloatOpt av with
      | some t, some a =>
        if 0 < t then [(str "memory_usage", .num ((t - a) / t * 100))]
        else []
      | _, _ => []
    else []
  | _, _ => []

/-- The response_time entry derived by _convert_monitors_to_endpoints from a
truthy ping_rtt on which float() succeeds. -/
def rtPartOf (d : Dict) : Dict :=
  match assocGet (str "ping_rtt") d with
  | some v =>
    if truthy v then
      match pyFloatOpt v with
      | some q => [(str "response_time", .num q)]
      | none => []
    else []
  | none => []

/-- The status string derived by _convert_monitors_to_endpoints: online when
the status flag is truthy, else offline; overridden to disabled when the
active flag is the boolean False (a Python is-False identity test). -/
def statusOf (d : Dict) : PyStr :=
  if assocGet (str "active") d = some (.pbool false) then str "disabled"
  else if (assocGet (str "status") d).elim false truthy then str "online"
  else str "offline"

/-- An optional copied entry of _convert_monitors_to_endpoints: the source
key's value is copied under the target key when truthy. -/
def copiedPartOf (srcKey tgtKey : PyStr) (d : Dict) : Dict :=
  match assocGet srcKey d with
  | some v => if truthy v then [(tgtKey, v)] else []
  | none => []

/-- Models PredictiveService._convert_monitors_to_endpoints for one monitor
record: the converted_data dictionary assembled from the parts above, in the
source's insertion order, with the id/name/endpoint wrapper keys. -/
def convert_monitor (m : Monitor) : Endpoint :=
  { name := some (m.endpoint.getD (str "Unknown"))
    id := some ((assocGet (str "id_end_point") m.data).getD
      (.pstr (m.endpoint.getD (str "Unknown"))))
    data := cpuPartOf m.data ++ memPartOf m.data ++ rtPartOf m.data ++
      [(str "status", .pstr (statusOf m.data))] ++
      copiedPartOf (str "last_updated") (str "last_updated") m.data ++
      copiedPartOf (str "sysName") (str "system_name") m.data ++
      copiedPartOf (str "sysDescr") (str "system_description") m.data }

/-- Models PredictiveService._convert_monitors_to_endpoints: the per-monitor
conversion mapped over the list (the per-iteration try/except is dead in this
total embedding). -/
def convert_monitors_to_endpoints (ms : List Monitor) : List Endpoint :=
  ms.map convert_monitor

/-- Models PredictiveService._analyze_general_health. -/
def analyze_general_health (d : InfraData) (config : PredictiveConfig)
    (now : PyStr) : List PredictiveAlert :=
  if d.total_endpoints = 0 then []
  else
    let availability_pct := d.total_online / d.total_endpoints * 100
    (if availability_pct < 50 then
      [mkPredictiveAlert (str "Infraestrutura Geral") (str "availability")
        (str "Baixa disponibilidade detectada (" ++ fmt1 availability_pct ++
          str "% online)")
        90
        (str "Imediato")
        [str "Verificar endpoints offline",
         str "Investigar problemas de conectividade",
         str "Implementar monitoramento proativo"]
        config.confidence_threshold now]
    else if availability_pct < 80 then
      [mkPredictiveAlert (str "Infraestrutura Geral") (str "availability")
        (str "Disponibilidade em risco (" ++ fmt1 availability_pct ++
          str "% online)")
        75
        (str "2-4 horas")
        [str "Monitorar endpoints críticos",
         str "Verificar tendência de degradação"]
        config.confidence_threshold now]
    else []) ++
    (if 0 < d.total_offline ∧
        3 / 10 < d.total_offline / d.total_endpoints then
      [mkPredictiveAlert (str "Rede/Conectividade") (str "network_health")
        (str "Alto número de endpoints offline (" ++ fmt1 d.total_offline ++
          str " de " ++ fmt1 d.total_endpoints ++ str ")")
        85
        (str "1-2 horas")
        [str "Verificar conectividade de rede",
         str "Analisar logs de conectividade",
         str "Verificar infraestrutura de rede"]
        config.confidence_threshold now]
    else [])

/-- Models PredictiveService._generate_sample_alerts: the three fixed exemplar
alerts, filtered by the confidence threshold. -/
def generate_sample_alerts (config : PredictiveConfig) (now : PyStr) :
    List PredictiveAlert :=
  [mkPredictiveAlert (str "Server-01") (str "cpu_usage")
    (str "Tendência de alto uso de CPU baseada em padrões históricos")
    78
    (str "4-8 horas")
    [str "Monitorar processos em execução",
     str "Verificar aplicações críticas"]
    config.confidence_threshold now,
   mkPredictiveAlert (str "Server-02") (str "memory_usage")
    (str "Possível esgotamento de memória detectado")
    72
    (str "6-12 horas")
    [str "Verificar vazamentos de memória",
     str "Considerar reinicialização de serviços"]
    config.confidence_threshold now,
   mkPredictiveAlert (str "Router-01") (str "network_latency")
    (str "Degradação na performance de rede prevista")
    68
    (str "2-6 horas")
    [str "Verificar conectividade",
     str "Analisar tráfego de rede"]
    config.confidence_threshold now].filter
      fun alert => decide (config.confidence_threshold ≤ alert.probability)

/-- Models PredictiveService.analyze_predictive_patterns. A falsy (empty or
missing) infrastructure_data dictionary is Option.none. The catch-all
exception handler of the source returns _generate_sample_alerts; in this
total embedding the try body cannot raise, and the fallback it would return
is the same generate_sample_alerts value produced on absent data. -/
def analyze_predictive_patterns (infrastructure_data : Option InfraData)
    (config : PredictiveConfig) (now : PyStr) : List PredictiveAlert :=
  match infrastructure_data with
  | none => generate_sample_alerts config now
  | some d =>
    let endpoints :=
      if d.monitors.isEmpty then d.endpoints
      else convert_monitors_to_endpoints d.monitors
    let alerts :=
      if endpoints.isEmpty then
        if 0 < d.total_endpoints then analyze_general_health d config now
        else []
      else endpoints.foldr
        (fun e acc => analyze_endpoint_trends e config now ++ acc) []
    let alerts := alerts ++ analyze_alert_patterns d.alerts config now
    let alerts :=
      if alerts.length < 3 then
        alerts ++ (generate_sample_alerts config now).take 3
      else alerts
    let filtered := alerts.filter
      fun alert => decide (config.confidence_threshold ≤ alert.probability)
    (List.mergeSort filtered
      (fun a b => decide (b.probability ≤ a.probability))).take 10

/-- The AnalysisResponse model, restricted to the fields the orchestration
claims observe; the error entry of the metadata dictionary is the optional
errorInfo. -/
structure AnalysisResponse where
  answer : PyStr
  confidence : ℚ
  sources : List PyStr
  suggestions : List PyStr
  errorInfo : Option PyStr
deriving DecidableEq

/-- The degraded AnalysisResponse built by the except handler of
RAGService.process_query. -/
def fallbackResponse (e : PyStr) : AnalysisResponse :=
  { answer := str "Desculpe, ocorreu um erro ao processar sua solicitação. Por favor, tente novamente."
    confidence := 0
    sources := []
    suggestions := [str "Tente reformular a pergunta",
                    str "Verifique a conectividade"]
    errorInfo := some e }

/-- Models RAGService.process_query. The context lookup and the optional
live-telemetry fetch are given by their outcomes (value or raised exception);
the generative collaborator is a function that may fail. When the
live-telemetry task exists, asyncio.gather with return_exceptions=True turns
a failing branch into an exception value: a failed live fetch becomes an
absent live_data, a failed context lookup becomes an empty context list. When
no live task exists, a context failure propagates into the outer try and is
caught there. The outer except turns every escaped failure into the fixed
degraded response, so the result is always Except.ok. -/
def process_query {α : Type} (ctxRes : Except PyStr (List PyStr))
    (liveRes : Option (Except PyStr α))
    (generate : List PyStr → Option α → Except PyStr AnalysisResponse) :
    Except PyStr AnalysisResponse :=
  match liveRes with
  | some lr =>
    let live : Option α := match lr with
      | .ok l => some l
      | .error _ => none
    let ctx : List PyStr := match ctxRes with
      | .ok c => c
      | .error _ => []
    match generate ctx live with
    | .ok r => .ok r
    | .error e => .ok (fallbackResponse e)
  | none =>
    match ctxRes with
    | .error e => .ok (fallbackResponse e)
    | .ok c =>
      match generate c none with
      | .ok r => .ok r
      | .error e => .ok (fallbackResponse e)

/-- Repeats a chunk of characters n times (builds concrete inputs). -/
def repChars : Nat → PyStr → PyStr
  | 0, _ => []
  | n + 1, s => s ++ repChars n s

/-- A 163-character document made of the word cpu repeated 41 times. -/
def docA : PyStr := repChars 40 (str "cpu ") ++ str "cpu"

/-- A three-document corpus whose documents all match the query cpu with
similarity 1; their raw contents total 489 characters, within the budget of
500, so the assembled context keeps all three and adds two 7-character
separators. -/
def kb3 : List KBDoc :=
  [{ id := str "d1", content := docA, metadata := [], timestamp := str "t" },
   { id := str "d2", content := docA, metadata := [], timestamp := str "t" },
   { id := str "d3", content := docA, metadata := [], timestamp := str "t" }]

/-- A monitor record whose total-memory field is 8192 and whose
available-memory field is the numeric value 0 (present and numeric, with a
positive total). -/
def c6Monitor : Monitor :=
  { endpoint := some (str "m1")
    data := [(str "memTotalReal", .num 8192), (str "memAvailReal", .num 0)] }

/-- The observable content of a predictive alert: every field except the
clock-derived id, timestamp and created_at. -/
def alertContent (a : PredictiveAlert) :
    PyStr × PyStr × PyStr × ℚ × PyStr × List PyStr × ℚ :=
  (a.endpoint, a.metric, a.predicted_issue, a.probability, a.estimated_time,
   a.suggested_actions, a.confidence_threshold)

/-- A concrete always-succeeding generation collaborator response echoing the
retrieved context into sources (used by concrete instantiations). -/
def respW (ctx : List PyStr) : AnalysisResponse :=
  { answer := str "ok"
    confidence := 1
    sources := ctx
    suggestions := []
    errorInfo := none }

/-- A concrete generation collaborator that always succeeds. -/
def genW : List PyStr → Option PyStr → Except PyStr AnalysisResponse :=
  fun ctx _ => .ok (respW ctx)

/-- The lexical similarity score is capped by the final min(similarity, 1.0)
of _simple_similarity. -/
theorem simple_similarity_le_one (t1 t2 : PyStr) :
    simple_similarity t1 t2 ≤ 1 := by
  unfold simple_similarity
  split_ifs with h
  · norm_num
  · exact min_le_right _ _

/-- C5 (counterexample): the claim asserts that for some query and document
the returned lexical score strictly exceeds 1.0; in fact no pair of texts
produces a returned score above 1.0 (the source caps the return value with
min(similarity, 1.0)), even though at the concrete pair (cpu, cpu) the
Jaccard-plus-bonus value before the cap is 11/10 > 1. -/
theorem c5_counterexample :
    1 < simple_similarity_raw (str "cpu") (str "cpu") ∧
    ¬ 1 < simple_similarity (str "cpu") (str "cpu") ∧
    ¬ ∃ t1 t2 : PyStr, 1 < simple_similarity t1 t2 := by
  refine ⟨by with_unfolding_all decide, by with_unfolding_all decide, ?_⟩
  rintro ⟨t1, t2, h⟩
  exact absurd h (not_lt.mpr (simple_similarity_le_one t1 t2))

/-- C5 (amended): the raw Jaccard-plus-keyword-bonus value can exceed 1.0,
but _simple_similarity returns min(score, 1.0), so the returned score never
exceeds 1.0. -/
theorem c5_amended :
    (∀ t1 t2 : PyStr, simple_similarity t1 t2 ≤ 1) ∧
    (∃ t1 t2 : PyStr, 1 < simple_similarity_raw t1 t2) :=
  ⟨simple_similarity_le_one,
   ⟨str "cpu", str "cpu", by with_unfolding_all decide⟩⟩

/-- C2: for every endpoint metric record whose cpu_usage is a numeric value v
with 80 < v ≤ 90, the CPU rule emits exactly one alert whose probability is
min(95, 70 + 2 (v - 80)) clamped into [0, 100]; on this band the clamp is the
identity, so the probability is exactly 70 + 2 (v - 80). -/
theorem c2_cpu_band (endpoint_name : PyStr) (d : Dict)
    (config : PredictiveConfig) (now : PyStr) (v : ℚ)
    (hget : assocGet (str "cpu_usage") d = some (.num v))
    (h80 : 80 < v) (h90 : v ≤ 90) :
    ∃ a, analyze_cpu_trends endpoint_name d config now = some a ∧
      a.probability = max 0 (min 100 (min 95 (70 + 2 * (v - 80)))) ∧
      a.probability = 70 + 2 * (v - 80) := by
  have hv0 : v ≠ 0 := by linarith
  have hrun : analyze_cpu_trends endpoint_name d config now =
      some (mkPredictiveAlert endpoint_name (str "cpu_usage")
        (str "Alto uso de CPU (" ++ fmt1 v ++
          str "%) pode causar degradação")
        (min 95 (70 + (v - 80) * 2))
        (if 90 < v then str "2-4 horas" else str "6-12 horas")
        [str "Verificar processos em execução",
         str "Considerar otimização de aplicações",
         str "Monitorar tendência nas próximas horas"]
        config.confidence_threshold now) := by
    unfold analyze_cpu_trends
    rw [hget]
    simp [truthy, isNumeric, toQ, hv0, h80]
  have hmin95 : min 95 (70 + (v - 80) * 2) = 70 + (v - 80) * 2 :=
    min_eq_right (by linarith)
  have hmin100 : min 100 (70 + (v - 80) * 2) = 70 + (v - 80) * 2 :=
    min_eq_right (by linarith)
  have hmax0 : max 0 (70 + (v - 80) * 2) = 70 + (v - 80) * 2 :=
    max_eq_right (by linarith)
  have hc : (70:ℚ) + 2 * (v - 80) = 70 + (v - 80) * 2 := by ring
  refine ⟨_, hrun, ?_, ?_⟩
  · simp only [mkPredictiveAlert]
    rw [hc]
  · simp only [mkPredictiveAlert]
    rw [hmin95, hmin100, hmax0]
    ring

/-- C2 (witness): the CPU band theorem instantiated at a record with
cpu_usage = 85. -/
theorem c2_witness :
    ∃ a, analyze_cpu_trends (str "e") [(str "cpu_usage", .num 85)]
        (mkPredictiveConfig 70) (str "t") = some a ∧
      a.probability = max 0 (min 100 (min 95 (70 + 2 * ((85:ℚ) - 80)))) ∧
      a.probability = 70 + 2 * ((85:ℚ) - 80) :=
  c2_cpu_band (str "e") [(str "cpu_usage", .num 85)]
    (mkPredictiveConfig 70) (str "t") 85 (by decide)
    (by norm_num) (by norm_num)

/-- C10: add_document raises ValueError exactly on blank content, leaving
the corpus unchanged in that case; on non-blank content it returns an id and
appends exactly one document carrying that id and the given content. -/
theorem c10_add_document (kb : List KBDoc) (content : PyStr)
    (meta : List (PyStr × PyStr)) (now : PyStr) :
    if (pyStrip content).isEmpty = true then
      add_document kb content meta none now =
        (.error (str "Conteúdo não pode estar vazio"), kb)
    else ∃ newId, (add_document kb content meta none now).1 = .ok newId ∧
      (add_document kb content meta none now).2 =
        kb ++ [{ id := newId, content := content, metadata := meta,
                 timestamp := now }] := by
  by_cases h : (pyStrip content).isEmpty = true
  · rw [if_pos h]
    unfold add_document
    rw [if_pos h]
  · rw [if_neg h]
    exact ⟨generate_id content now,
      by unfold add_document; rw [if_neg h],
      by unfold add_document; rw [if_neg h]⟩

/-- C7 (counterexample): the claim asserts no public operation ever raises;
but add_document on whitespace-only content raises ValueError to the
caller. -/
theorem c7_counterexample :
    (add_document [] (str " ") [] none (str "t0")).1 =
      .error (str "Conteúdo não pode estar vazio") := by
  rfl

/-- C7 (amended): the public operations never propagate an exception, with
the single exception of add_document, which fails exactly on blank content:
its result is an error precisely when the stripped content is empty, and the
orchestrating process_query returns a well-formed response for every outcome
of the retrieval branch, the live-telemetry branch and the generation
collaborator (the remaining operations of the claim are total functions in
this embedding, their internal catch-all handlers having nothing left to
catch). -/
theorem c7_amended :
    (∀ (kb : List KBDoc) (content : PyStr) (meta : List (PyStr × PyStr))
        (did : Option PyStr) (now : PyStr),
      (add_document kb content meta did now).1.isOk =
        !(pyStrip content).isEmpty) ∧
    (∀ (α : Type) (ctxRes : Except PyStr (List PyStr))
        (liveRes : Option (Except PyStr α))
        (generate : List PyStr → Option α → Except PyStr AnalysisResponse),
      (process_query ctxRes liveRes generate).isOk = true) := by
  constructor
  · intro kb content meta did now
    unfold add_document
    cases h : (pyStrip content).isEmpty <;> simp [h, Except.isOk, Except.toBool]
  · intro α ctxRes liveRes generate
    unfold process_query
    rcases liveRes with _ | lr
    · rcases ctxRes with e | c
      · rfl
      · rcases hg : generate c none with e | r <;>
          simp [hg, Except.isOk, Except.toBool]
    · rcases hg : generate (match ctxRes with | .ok c => c | .error _ => [])
          (match lr with | .ok l => some l | .error _ => none) with e | r <;>
        simp [hg, Except.isOk, Except.toBool]

/-- C8: if the live-telemetry branch raises while the context lookup
succeeds, process_query still returns the well-formed response produced by
the generation collaborator with the live data treated as absent, and the
telemetry exception never propagates; symmetrically, a failed context lookup
does not abort the live-telemetry branch (the context contribution becomes
empty instead). -/
theorem c8_branch_independence {α : Type} (c : List PyStr) (e e' : PyStr)
    (l : α)
    (generate : List PyStr → Option α → Except PyStr AnalysisResponse)
    (r r' : AnalysisResponse)
    (h1 : generate c none = .ok r) (h2 : generate [] (some l) = .ok r') :
    process_query (.ok c) (some (.error e)) generate = .ok r ∧
    process_query (.error e') (some (.ok l)) generate = .ok r' := by
  constructor <;> (unfold process_query; simp [h1, h2])

/-- C8 (witness): the branch-independence theorem instantiated with a
concrete context, a concrete live blob and an always-succeeding generation
collaborator. -/
theorem c8_witness :
    process_query (.ok [str "doc"]) (some (.error (str "boom"))) genW =
      .ok (respW [str "doc"]) ∧
    process_query (.error (str "ctxfail")) (some (.ok (str "live"))) genW =
      .ok (respW []) :=
  c8_branch_independence [str "doc"] (str "boom") (str "ctxfail")
    (str "live") genW (respW [str "doc"]) (respW []) rfl rfl

/-- Lists of alerts with identical observable content are filtered by the
confidence threshold in the same positions (the threshold reads only the
probability, which is part of the observable content). -/
theorem filter_byprob_map_congr (thr : ℚ) :
    ∀ l1 l2 : List PredictiveAlert,
      l1.map alertContent = l2.map alertContent →
      (l1.filter fun a => decide (thr ≤ a.probability)).map alertContent =
        (l2.filter fun a => decide (thr ≤ a.probability)).map alertContent := by
  intro l1
  induction l1 with
  | nil =>
    intro l2 h
    cases l2 with
    | nil => rfl
    | cons b rest2 => simp at h
  | cons a rest ih =>
    intro l2 h
    cases l2 with
    | nil => simp at h
    | cons b rest2 =>
      simp only [List.map_cons, List.cons.injEq] at h
      have hprob : a.probability = b.probability := by
        have := congrArg (fun t => t.2.2.2.1) h.1
        simpa [alertContent] using this
      simp only [List.filter_cons, hprob]
      cases hd : decide (thr ≤ b.probability) <;>
        simp [List.map_cons, h.1, ih rest2 h.2]

/-- C4 (counterexample): the claim asserts that two runs of the predictive
analysis on an empty candidate set with identical default configuration give
byte-identical output, ids and timestamps included; running the analysis at
two distinct clock readings gives different outputs (ids, timestamps and
created_at embed the clock reading). -/
theorem c4_counterexample :
    analyze_predictive_patterns none (mkPredictiveConfig 70)
        (str "2024-01-01T00:00:00") ≠
      analyze_predictive_patterns none (mkPredictiveConfig 70)
        (str "2024-01-01T00:00:01") := by
  with_unfolding_all decide

/-- C4 (amended): on an empty candidate set the analysis returns the fixed
exemplar alert set filtered by the threshold, and two runs with identical
configuration agree on every field of every alert except the clock-derived
id, timestamp and created_at (content determinism; byte identity fails only
on those fields). -/
theorem c4_amended (config : PredictiveConfig) (t1 t2 : PyStr) :
    analyze_predictive_patterns none config t1 =
      generate_sample_alerts config t1 ∧
    (analyze_predictive_patterns none config t1).map alertContent =
      (analyze_predictive_patterns none config t2).map alertContent := by
  refine ⟨rfl, ?_⟩
  show (generate_sample_alerts config t1).map alertContent =
    (generate_sample_alerts config t2).map alertContent
  unfold generate_sample_alerts
  exact filter_byprob_map_congr config.confidence_threshold _ _ rfl

/-- Association-list lookup skips a prefix whose keys all differ from the
searched key. -/
theorem assocGet_append_right {β : Type} (k : PyStr)
    (xs ys : List (PyStr × β)) (h : ∀ e ∈ xs, e.1 ≠ k) :
    assocGet k (xs ++ ys) = assocGet k ys := by
  induction xs with
  | nil => rfl
  | cons e rest ih =>
    simp only [List.cons_append, assocGet]
    rw [if_neg (h e (List.mem_cons_self e rest))]
    exact ih fun e' he' => h e' (List.mem_cons_of_mem _ he')

/-- Every entry of the derived cpu part is keyed cpu_usage. -/
theorem cpuPartOf_keys (d : Dict) :
    ∀ e ∈ cpuPartOf d, e.1 = str "cpu_usage" := by
  intro e he
  unfold cpuPartOf at he
  rcases hx : assocGet (str "hrProcessorLoad") d with _ | v
  · rw [hx] at he
    simp at he
  · rw [hx] at he
    rcases hy : pyFloatOpt v with _ | q
    · simp [hy] at he
    · simp [hy] at he
      rw [he]

/-- C6 (counterexample): the claim asserts memory_usage is derived whenever
both memory fields are present as numeric values with a positive total; at a
monitor whose available-memory field is the numeric value 0 (falsy in
Python), both fields are present and numeric and the total is positive, yet
the conversion derives no memory_usage at all (the claim would require the
value 100). -/
theorem c6_counterexample :
    assocGet (str "memTotalReal") c6Monitor.data = some (.num 8192) ∧
    assocGet (str "memAvailReal") c6Monitor.data = some (.num 0) ∧
    isNumeric (.num 8192) = true ∧ isNumeric (.num 0) = true ∧
    (0:ℚ) < 8192 ∧
    assocGet (str "memory_usage") (convert_monitor c6Monitor).data = none := by
  refine ⟨by decide, by decide, rfl, rfl, by norm_num,
    by with_unfolding_all decide⟩

/-- C6 (amended): for every monitor record whose total-memory and
available-memory fields are present as truthy (non-zero) numeric values with
total > 0, the conversion derives
memory_usage = (total - available) / total * 100. -/
theorem c6_amended (m : Monitor) (t a : ℚ)
    (hT : assocGet (str "memTotalReal") m.data = some (.num t))
    (hA : assocGet (str "memAvailReal") m.data = some (.num a))
    (ht0 : t ≠ 0) (ha0 : a ≠ 0) (hpos : 0 < t) :
    assocGet (str "memory_usage") (convert_monitor m).data =
      some (.num ((t - a) / t * 100)) := by
  have hmem : memPartOf m.data =
      [(str "memory_usage", .num ((t - a) / t * 100))] := by
    unfold memPartOf
    rw [hT, hA]
    simp [truthy, pyFloatOpt, ht0, ha0, hpos]
  have hcpu : ∀ e ∈ cpuPartOf m.data, e.1 ≠ str "memory_usage" := by
    intro e he
    rw [cpuPartOf_keys m.data e he]
    decide
  have hd : (convert_monitor m).data =
      cpuPartOf m.data ++ (memPartOf m.data ++ (rtPartOf m.data ++
        ([(str "status", PyVal.pstr (statusOf m.data))] ++
         (copiedPartOf (str "last_updated") (str "last_updated") m.data ++
          (copiedPartOf (str "sysName") (str "system_name") m.data ++
           copiedPartOf (str "sysDescr") (str "system_description")
             m.data))))) := by
    simp only [convert_monitor, List.append_assoc]
  rw [hd, assocGet_append_right (str "memory_usage") (cpuPartOf m.data) _
    hcpu, hmem]
  simp [assocGet]

/-- Sorting alerts with the descending-probability comparator and truncating
yields a list pairwise ordered by non-increasing probability. -/
theorem ranked_take10_sorted (l : List PredictiveAlert) :
    List.Pairwise (fun a b => b.probability ≤ a.probability)
      ((List.mergeSort l
        (fun a b => decide (b.probability ≤ a.probability))).take 10) := by
  apply List.Pairwise.sublist (List.take_sublist _ _)
  have h := @List.sorted_mergeSort PredictiveAlert
    (fun a b => decide (b.probability ≤ a.probability))
    (fun a b c hab hbc => by
      simp only [decide_eq_true_eq] at hab hbc ⊢
      exact le_trans hbc hab)
    (fun a b => by
      rcases le_total b.probability a.probability with h | h <;> simp [h])
    l
  exact h.imp fun hab => by simpa using hab

/-- Truncating a sorted list to ten elements bounds its length by ten. -/
theorem ranked_take10_len (l : List PredictiveAlert)
    (f : PredictiveAlert → PredictiveAlert → Bool) :
    ((List.mergeSort l f).take 10).length ≤ 10 := by
  rw [List.length_take]
  exact min_le_left _ _

/-- C1: for every infrastructure-data input and every configuration, the list
returned by the predictive analysis is pairwise sorted by non-increasing
probability and has length at most 10. The absent-data path (which is also
the value returned by the catch-all exception handler) returns the fixed
exemplar alerts filtered by the threshold, which are sorted 78 ≥ 72 ≥ 68 and
number at most three; the main path sorts the filtered candidates and then
truncates to ten. -/
theorem c1_ranked_and_bounded (data : Option InfraData)
    (config : PredictiveConfig) (now : PyStr) :
    List.Pairwise (fun a b => b.probability ≤ a.probability)
      (analyze_predictive_patterns data config now) ∧
    (analyze_predictive_patterns data config now).length ≤ 10 := by
  cases data with
  | some d => exact ⟨ranked_take10_sorted _, ranked_take10_len _ _⟩
  | none =>
    constructor
    · show List.Pairwise _ (generate_sample_alerts config now)
      unfold generate_sample_alerts
      apply List.Pairwise.filter
      refine List.Pairwise.cons ?_ (List.Pairwise.cons ?_
        (List.Pairwise.cons ?_ List.Pairwise.nil))
      · intro a ha
        rcases List.mem_cons.mp ha with rfl | ha2
        · simp only [mkPredictiveAlert]
          norm_num
        · rcases List.mem_cons.mp ha2 with rfl | ha3
          · simp only [mkPredictiveAlert]
            norm_num
          · exact absurd ha3 (List.not_mem_nil a)
      · intro a ha
        rcases List.mem_cons.mp ha with rfl | ha2
        · simp only [mkPredictiveAlert]
          norm_num
        · exact absurd ha2 (List.not_mem_nil a)
      · intro a ha
        exact absurd ha (List.not_mem_nil a)
    · show (generate_sample_alerts config now).length ≤ 10
      unfold generate_sample_alerts
      exact le_trans (List.length_filter_le _ _) (by norm_num)

/-- The raw content collected by the context-assembly loop never exceeds the
remaining budget by more than the three ellipsis characters. -/
theorem build_context_parts_sum (maxLen : Nat) (cs : List PyStr) :
    ∀ cur : Nat,
      ((build_context_parts maxLen cs cur).map List.length).sum ≤
        (maxLen - cur) + 3 := by
  induction cs with
  | nil => intro cur; simp [build_context_parts]
  | cons c rest ih =>
    intro cur
    simp only [build_context_parts]
    split_ifs with h1 h2
    · simp only [List.map_cons, List.sum_cons]
      have := ih (cur + c.length)
      omega
    · simp only [List.map_cons, List.map_nil, List.sum_cons, List.sum_nil,
        List.length_append]
      have ht : (c.take (maxLen - cur)).length ≤ maxLen - cur := by
        rw [List.length_take]
        exact min_le_left _ _
      have he : ellipsisStr.length = 3 := rfl
      omega
    · simp

/-- The context-assembly loop emits at most one chunk per candidate. -/
theorem build_context_parts_count (maxLen : Nat) (cs : List PyStr) :
    ∀ cur : Nat, (build_context_parts maxLen cs cur).length ≤ cs.length := by
  induction cs with
  | nil => intro cur; simp [build_context_parts]
  | cons c rest ih =>
    intro cur
    simp only [build_context_parts]
    split_ifs with h1 h2
    · simpa using Nat.succ_le_succ (ih (cur + c.length))
    · simp
    · simp

/-- Joining chunks adds one separator between consecutive chunks. -/
theorem pyJoin_length (sep : PyStr) (ps : List PyStr) :
    (pyJoin sep ps).length ≤
      (ps.map List.length).sum + sep.length * (ps.length - 1) := by
  induction ps with
  | nil => simp [pyJoin]
  | cons x rest ih =>
    cases rest with
    | nil => simp [pyJoin]
    | cons y rest2 =>
      simp only [pyJoin, List.length_append, List.map_cons, List.sum_cons,
        List.length_cons] at ih ⊢
      have hm : sep.length * (rest2.length + 1 + 1 - 1) =
          sep.length * (rest2.length + 1 - 1) + sep.length := by
        simp [Nat.mul_succ]
      omega

/-- The assembled context for a budget of 500 over at most three chunks is
bounded by 500 + 3 (ellipsis) + 2 * 7 (separators) = 517 characters. -/
theorem context_join_le (docs : List PyStr) (h : docs.length ≤ 3) :
    (pyJoin ctxSep (build_context_parts 500 docs 0)).length ≤ 517 := by
  have hsum := build_context_parts_sum 500 docs 0
  have hcnt := build_context_parts_count 500 docs 0
  have hjoin := pyJoin_length ctxSep (build_context_parts 500 docs 0)
  have h7 : ctxSep.length = 7 := rfl
  rw [h7] at hjoin
  omega

/-- C3 (counterexample): the claim asserts the assembled context never
exceeds 500 characters, separators and ellipsis included; at a corpus of
three 163-character documents matching the query, the raw contents total 489
(within budget) but the returned string has 489 + 2 * 7 = 503 characters,
because the source never charges the inserted separators (nor an appended
ellipsis) against the budget. -/
theorem c3_counterexample :
    500 < (get_relevant_context kb3 (str "cpu") 500 3).length := by
  set_option maxRecDepth 4000 in with_unfolding_all decide

/-- C3 (amended): the raw document content counted against the budget never
exceeds 500 characters, but the returned string also carries the inserted
separators (7 characters each, at most two of them) and a possible 3-character
ellipsis, so its total length is bounded by 517, not 500. -/
theorem c3_amended (kb : List KBDoc) (query : PyStr) :
    (get_relevant_context kb query 500 3).length ≤ 517 := by
  simp only [get_relevant_context]
  split_ifs with h1 h2
  · simp
  · decide
  · apply context_join_le
    rw [List.length_map, List.length_take]
    exact min_le_left _ _

/-- A text with a non-empty cleaned word set has lexical similarity exactly 1
with itself: the Jaccard part is card/card = 1, the keyword bonus can only
increase it, and the final cap brings it back to 1. -/
theorem simple_similarity_self (t : PyStr) (h : word_set t ≠ ∅) :
    simple_similarity t t = 1 := by
  have hcard : (0:ℚ) < ((word_set t).card : ℚ) := by
    have hpos : 0 < (word_set t).card :=
      Finset.card_pos.mpr (Finset.nonempty_iff_ne_empty.mpr h)
    exact_mod_cast hpos
  have hraw : 1 ≤ simple_similarity_raw t t := by
    unfold simple_similarity_raw
    simp only [Finset.inter_self, Finset.union_self]
    rw [if_neg h, div_self (ne_of_gt hcard)]
    split_ifs with hc
    · have hb : (0:ℚ) ≤ ((word_set t ∩ important_words).card : ℚ) * (1 / 10) := by
        positivity
      linarith
    · exact le_refl 1
  unfold simple_similarity
  rw [if_neg (by simp [h]), min_eq_right hraw]

/-- Every entry of the scored candidate list carries a similarity value of
_simple_similarity, hence at most 1. -/
theorem search_scored_sim_le_one (kb : List KBDoc) (q : PyStr)
    (fm : Option (List (PyStr × PyStr))) :
    ∀ r ∈ search_scored kb q fm, r.similarity ≤ 1 := by
  intro r hr
  unfold search_scored at hr
  rw [List.mem_filterMap] at hr
  obtain ⟨item, _, hit⟩ := hr
  split_ifs at hit with hmm hs
  rw [Option.some.injEq] at hit
  rw [← hit]
  exact simple_similarity_le_one _ _

/-- Scoring distributes over corpus concatenation. -/
theorem search_scored_append (kb1 kb2 : List KBDoc) (q : PyStr)
    (fm : Option (List (PyStr × PyStr))) :
    search_scored (kb1 ++ kb2) q fm =
      search_scored kb1 q fm ++ search_scored kb2 q fm := by
  unfold search_scored
  simp [List.filterMap_append]

/-- Scoring a freshly added document against its own content (with no
metadata filter) keeps it, with similarity exactly 1. -/
theorem search_scored_single_self (c idv : PyStr)
    (meta : List (PyStr × PyStr)) (now : PyStr) (h : word_set c ≠ ∅) :
    search_scored
      [{ id := idv, content := c, metadata := meta, timestamp := now }]
      c none =
      [{ id := idv, content := c, metadata := meta, similarity := 1 }] := by
  unfold search_scored
  simp only [List.filterMap_cons, List.filterMap_nil, metaMatches, if_true]
  rw [simple_similarity_self c h]
  rw [if_pos (by norm_num : (1:ℚ)/10 < 1)]

/-- In a list sorted by non-increasing similarity, the head dominates every
element. -/
theorem sorted_head_ge (x : SearchResult) (xs : List SearchResult)
    (hp : List.Pairwise
      (fun a b => decide (b.similarity ≤ a.similarity) = true) (x :: xs))
    (y : SearchResult) (hy : y ∈ x :: xs) : y.similarity ≤ x.similarity := by
  rcases List.mem_cons.mp hy with rfl | hy2
  · exact le_refl _
  · have := List.rel_of_pairwise_cons hp hy2
    simpa using this

/-- C9 (amended): for every corpus and every content whose cleaned word set
is non-empty (hence non-blank), add_document followed by
search_similar(content, 1) succeeds: the single returned result carries the
maximal similarity, the added document itself scores exactly that same
similarity (tied-top) and sits in the scored candidate list under the
returned id, strictly above the 0.1 cutoff. -/
theorem c9_amended (kb : List KBDoc) (content : PyStr)
    (meta : List (PyStr × PyStr)) (now : PyStr)
    (hw : word_set content ≠ ∅) (hb : (pyStrip content).isEmpty = false) :
    ∃ kb', add_document kb content meta none now =
        (.ok (generate_id content now), kb') ∧
      ∃ r, search_similar kb' content 1 none = [r] ∧
        (1:ℚ)/10 < r.similarity ∧
        ∃ d ∈ search_scored kb' content none,
          d.id = generate_id content now ∧ d.similarity = r.similarity := by
  have hadd : add_document kb content meta none now =
      (.ok (generate_id content now),
       kb ++ [{ id := generate_id content now, content := content,
                metadata := meta, timestamp := now }]) := by
    unfold add_document
    rw [hb]
    rfl
  refine ⟨_, hadd, ?_⟩
  have hsingle := search_scored_single_self content (generate_id content now)
    meta now hw
  have hsc : search_scored
      (kb ++ [{ id := generate_id content now, content := content,
                metadata := meta, timestamp := now }]) content none =
      search_scored kb content none ++
        [{ id := generate_id content now, content := content,
           metadata := meta, similarity := 1 }] := by
    rw [search_scored_append, hsingle]
  have hmem :
      ({ id := generate_id content now, content := content,
         metadata := meta, similarity := 1 } : SearchResult) ∈
      search_scored
        (kb ++ [{ id := generate_id content now, content := content,
                  metadata := meta, timestamp := now }]) content none := by
    rw [hsc]
    exact List.mem_append_right _ (List.mem_singleton_self _)
  have hpair := @List.sorted_mergeSort SearchResult
    (fun a b => decide (b.similarity ≤ a.similarity))
    (fun a b c hab hbc => by
      simp only [decide_eq_true_eq] at hab hbc ⊢
      exact le_trans hbc hab)
    (fun a b => by
      rcases le_total b.similarity a.similarity with h | h <;> simp [h])
    (search_scored
      (kb ++ [{ id := generate_id content now, content := content,
                metadata := meta, timestamp := now }]) content none)
  have hmemL :
      ({ id := generate_id content now, content := content,
         metadata := meta, similarity := 1 } : SearchResult) ∈
      List.mergeSort
        (search_scored
          (kb ++ [{ id := generate_id content now, content := content,
                    metadata := meta, timestamp := now }]) content none)
        (fun a b => decide (b.similarity ≤ a.similarity)) :=
    List.mem_mergeSort.mpr hmem
  rcases hL : List.mergeSort
      (search_scored
        (kb ++ [{ id := generate_id content now, content := content,
                  metadata := meta, timestamp := now }]) content none)
      (fun a b => decide (b.similarity ≤ a.similarity)) with _ | ⟨x, xs⟩
  · rw [hL] at hmemL
    exact absurd hmemL (List.not_mem_nil _)
  · rw [hL] at hpair hmemL
    have hx_top : (1:ℚ) ≤ x.similarity := by
      have := sorted_head_ge x xs hpair _ hmemL
      simpa using this
    have hx_mem : x ∈ search_scored
        (kb ++ [{ id := generate_id content now, content := content,
                  metadata := meta, timestamp := now }]) content none := by
      have : x ∈ List.mergeSort
          (search_scored
            (kb ++ [{ id := generate_id content now, content := content,
                      metadata := meta, timestamp := now }]) content none)
          (fun a b => decide (b.similarity ≤ a.similarity)) := by
        rw [hL]
        exact List.mem_cons_self _ _
      exact List.mem_mergeSort.mp this
    have hx1 : x.similarity = 1 :=
      le_antisymm (search_scored_sim_le_one _ _ _ x hx_mem) hx_top
    refine ⟨x, ?_, ?_, ?_⟩
    · unfold search_similar
      rw [hL]
      rfl
    · rw [hx1]
      norm_num
    · exact ⟨_, hmem, rfl, hx1.symm⟩

/-- C9 (witness): the amended round-trip theorem instantiated with the empty
corpus and the content cpu. -/
theorem c9_witness :
    ∃ kb', add_document [] (str "cpu") [] none (str "t0") =
        (.ok (generate_id (str "cpu") (str "t0")), kb') ∧
      ∃ r, search_similar kb' (str "cpu") 1 none = [r] ∧
        (1:ℚ)/10 < r.similarity ∧
        ∃ d ∈ search_scored kb' (str "cpu") none,
          d.id = generate_id (str "cpu") (str "t0") ∧
          d.similarity = r.similarity :=
  c9_amended [] (str "cpu") [] (str "t0") (by decide) (by decide)

/-- C9 (counterexample): the claim quantifies over every content string; for
the non-blank content 123 the add succeeds, but the cleaned word set is empty
(digits are stripped), the self-similarity is 0 ≤ 0.1, and the immediate
search over the grown corpus returns no result at all instead of the added
document. -/
theorem c9_counterexample :
    (add_document [] (str "123") [] none (str "t0")).1.isOk = true ∧
    search_similar (add_document [] (str "123") [] none (str "t0")).2
      (str "123") 1 none = [] := by
  with_unfolding_all decide

/-- C6 (witness): the amended memory-normalization theorem instantiated at
mem_total = 8192 and mem_avail = 1024, whose derived memory_usage is
(8192 - 1024) / 8192 * 100 = 87.5. -/
theorem c6_witness :
    assocGet (str "memory_usage")
      (convert_monitor
        { endpoint := some (str "m2")
          data := [(str "memTotalReal", .num 8192),
                   (str "memAvailReal", .num 1024)] }).data =
      some (.num (((8192:ℚ) - 1024) / 8192 * 100)) ∧
    ((8192:ℚ) - 1024) / 8192 * 100 = 875 / 10 :=
  ⟨c6_amended _ 8192 1024 (by decide) (by decide) (by norm_num) (by norm_num)
    (by norm_num), by norm_num⟩

/-- C10 (witness): the add_document contract instantiated at the non-blank
content abc over the empty corpus. -/
theorem c10_witness :
    if (pyStrip (str "abc")).isEmpty = true then
      add_document [] (str "abc") [] none (str "t0") =
        (.error (str "Conteúdo não pode estar vazio"), [])
    else ∃ newId,
      (add_document [] (str "abc") [] none (str "t0")).1 = .ok newId ∧
      (add_document [] (str "abc") [] none (str "t0")).2 =
        [] ++ [{ id := newId, content := str "abc", metadata := [],
                 timestamp := str "t0" }] :=
  c10_add_document [] (str "abc") [] (str "t0")

end InfraWatch
